import Mathlib

/-!
Shallow embedding of `src/app/api/views/alias.py` (email-alias management API):
alias handlers (delete, toggle, update note, list activities, list contacts,
create contact), the reverse-alias (reply_email) generation loop, contact
serialization and pagination.  Store state is passed explicitly; request-level
randomness is an explicit stream of tokens; HTTP responses are a status code
plus an optional payload plus the resulting store.
-/

namespace AliasApi

/-- An alias row (`Alias` model): id, owning user, enabled flag, free-text note. -/
structure Alias where
  id : Nat
  user_id : Nat
  enabled : Bool
  note : Option String
deriving DecidableEq, Repr

/-- A contact row (`Contact` model): owning alias (`gen_email_id`), parsed
correspondent address (`website_email`), raw From header (`website_from`,
absent when the request body had no value), synthetic reverse-alias address
(`reply_email`) and creation timestamp. -/
structure Contact where
  id : Nat
  gen_email_id : Nat
  website_email : String
  website_from : Option String
  reply_email : String
  created_at : Nat
deriving DecidableEq, Repr

/-- One mail-event log row (`EmailLog` joined with the view used by
`get_alias_activities`): tied to an alias and optionally a contact, with the
`when` timestamp, direction/classification flags, the alias address and the
correspondent's raw-from / parsed email. -/
structure EmailLog where
  alias_id : Nat
  contact_id : Option Nat
  when : Nat
  is_reply : Bool
  bounced : Bool
  blocked : Bool
  aliasEmail : String
  website_from : Option String
  website_email : String
deriving DecidableEq, Repr

/-- The persistent store: alias rows, contact rows, append-only logs, and the
next primary key handed out for contacts. -/
structure Store where
  aliases : List Alias
  contacts : List Contact
  logs : List EmailLog
  nextContactId : Nat
deriving Repr

/-- Request-level configuration: the reverse-alias domain (`EMAIL_DOMAIN`),
the page size (`PAGE_LIMIT`) and the stream of random tokens consumed by
successive `random_string(25)` calls. -/
structure Config where
  domain : String
  pageLimit : Nat
  now : Nat
  tokens : Nat → String

/-- Outcome of one handler: HTTP status, optional payload, resulting store. -/
structure HandlerOut (α : Type) where
  status : Nat
  body : Option α
  store : Store

/-- Python truthiness of `x or y` on an optional string: the left operand is
used when it is present and non-empty, otherwise the right one. -/
def strOr : Option String → String → String
  | none, d => d
  | some s, d => if s = "" then d else s

/-- Strip leading and trailing spaces from a character list. -/
def trimChars (cs : List Char) : List Char :=
  (((cs.dropWhile fun ch => ch = ' ').reverse.dropWhile fun ch => ch = ' ').reverse)

/-- Modelled from the spec: RFC 5322 address-field parsing
(`email.utils.parseaddr`, Python standard library, not part of this
repository): extract the address portion and discard the display name; a
`Name <addr>` input yields `(Name, addr)`, a bare string yields itself
(trimmed) as the address, and an input with no address material yields the
empty address. -/
def parseaddr (s : String) : String × String :=
  let cs := s.data
  if cs.any (fun ch => ch = '<') then
    let name := cs.takeWhile fun ch => ch ≠ '<'
    let rest := (cs.dropWhile fun ch => ch ≠ '<').drop 1
    let addr := rest.takeWhile fun ch => ch ≠ '>'
    (String.mk (trimChars name), String.mk (trimChars addr))
  else ("", String.mk (trimChars cs))

/-- Look an alias up by primary key (`Alias.get`). -/
def getAlias (s : Store) (aliasId : Nat) : Option Alias :=
  s.aliases.find? (fun a => a.id = aliasId)

/-- The four activity classifications emitted by `get_alias_activities`. -/
inductive AAction where
  | forward
  | reply
  | block
  | bounced
deriving DecidableEq, Repr

/-- One entry of the activity timeline: timestamp, resolved from/to, action. -/
structure Activity where
  timestamp : Nat
  fromAddr : String
  toAddr : String
  action : AAction
deriving DecidableEq, Repr

/-- Per-row classification performed by the loop in `get_alias_activities`
(lines 148-166): a reply flows alias → correspondent; otherwise the flow is
correspondent → alias and the action is bounced, else block, else forward. -/
def classifyActivity (l : EmailLog) : Activity :=
  if l.is_reply then
    { timestamp := l.when
      fromAddr := l.aliasEmail
      toAddr := strOr l.website_from l.website_email
      action := .reply }
  else
    { timestamp := l.when
      fromAddr := strOr l.website_from l.website_email
      toAddr := l.aliasEmail
      action := if l.bounced then .bounced else if l.blocked then .block else .forward }

/-- A reverse-alias candidate `ra+<token>@<domain>` (line 299/301). -/
def mkCandidate (domain tok : String) : String :=
  "ra+" ++ tok ++ "@" ++ domain

/-- The bounded retry loop of `create_contact_route` (lines 299-303), indexed
by the number of the next random draw.  With fuel left, draw token `i` and
return the candidate when it is absent from `existing`, else retry; with no
fuel left the loop has ended and the last-drawn candidate (draw `i - 1`)
stands.  `genReplyEmail` runs it for draws 1..1000; draw 0 is the dead
assignment before the `for` loop. -/
def genGo (domain : String) (tokens : Nat → String) (existing : List String) :
    Nat → Nat → String
  | i, 0 => mkCandidate domain (tokens (i - 1))
  | i, fuel + 1 =>
    let c := mkCandidate domain (tokens i)
    if existing.any (fun e => e = c) then genGo domain tokens existing (i + 1) fuel else c

/-- `reply_email` generation in `create_contact_route`: up to 1000 attempts,
each a read-only existence check against the stored reply addresses. -/
def genReplyEmail (cfg : Config) (existing : List String) : String :=
  genGo cfg.domain cfg.tokens existing 1 1000

/-- Modelled from the spec: `Alias.get` lives in `app/models`, not under
`src/`; per §4.4 "Alias lookup itself fails with `NotFound` if the id does not
exist", so a missing id short-circuits the handler with a 404 response and an
unchanged store.  With the id present the handler body runs on the row. -/
def withAlias {α : Type} (s : Store) (aliasId : Nat) (k : Alias → HandlerOut α) :
    HandlerOut α :=
  match getAlias s aliasId with
  | none => ⟨404, none, s⟩
  | some a => k a

/-- `delete_alias` (lines 72-90): ownership gate, then delete the row; the
cascade to contacts and logs is owned by the data layer (§3). -/
def deleteAlias (s : Store) (userId aliasId : Nat) : HandlerOut Bool :=
  withAlias s aliasId fun a =>
    if a.user_id ≠ userId then ⟨403, none, s⟩
    else
      ⟨200, some true,
        { s with
          aliases := s.aliases.filter (fun x => x.id ≠ aliasId)
          contacts := s.contacts.filter (fun c => c.gen_email_id ≠ aliasId)
          logs := s.logs.filter (fun l => l.alias_id ≠ aliasId) }⟩

/-- `toggle_alias` (lines 96-116): ownership gate, then flip `enabled` and
answer with the new value. -/
def toggleAlias (s : Store) (userId aliasId : Nat) : HandlerOut Bool :=
  withAlias s aliasId fun a =>
    if a.user_id ≠ userId then ⟨403, none, s⟩
    else
      ⟨200, some (!a.enabled),
        { s with
          aliases :=
            s.aliases.map fun x =>
              if x.id = aliasId then { x with enabled := !x.enabled } else x }⟩

/-- `update_alias` (lines 174-199): empty-body validation first, then
ownership gate, then replace the note and answer with it.  The request body is
`none` when `request.get_json()` is empty and `some note` otherwise. -/
def updateAlias (s : Store) (userId aliasId : Nat) (reqBody : Option String) :
    HandlerOut String :=
  match reqBody with
  | none => ⟨400, none, s⟩
  | some note =>
    withAlias s aliasId fun a =>
      if a.user_id ≠ userId then ⟨403, none, s⟩
      else
        ⟨200, some note,
          { s with
            aliases :=
              s.aliases.map fun x =>
                if x.id = aliasId then { x with note := some note } else x }⟩

/-- Descending-id order on contacts (`Contact.id.desc()`). -/
def contactDesc (a b : Contact) : Prop := b.id ≤ a.id

instance : DecidableRel contactDesc := fun a b => Nat.decLe b.id a.id

instance : IsTotal Contact contactDesc := ⟨fun a b => Nat.le_total b.id a.id⟩

instance : IsTrans Contact contactDesc := ⟨fun _ _ _ h1 h2 => Nat.le_trans h2 h1⟩

/-- Most-recent-first order on log rows. -/
def logDesc (a b : EmailLog) : Prop := b.when ≤ a.when

instance : DecidableRel logDesc := fun a b => Nat.decLe b.when a.when

/-- Modelled from the spec: `get_alias_log` lives in
`app/dashboard/views/alias_log`, not under `src/`; per §4.3 it fetches the
EmailLog rows of the alias, most-recent-first, paginated identically to
contacts. -/
def getAliasLog (cfg : Config) (s : Store) (aliasId pageId : Nat) : List EmailLog :=
  ((List.insertionSort logDesc (s.logs.filter fun l => l.alias_id = aliasId)).drop
      (pageId * cfg.pageLimit)).take
    cfg.pageLimit

/-- `get_alias_activities` (lines 122-168): page-id validation, lookup,
ownership gate, then map the per-row classification over the fetched log page.
`pageId` is `none` when `page_id` is missing or not an integer. -/
def getAliasActivities (cfg : Config) (s : Store) (userId aliasId : Nat)
    (pageId : Option Nat) : HandlerOut (List Activity) :=
  match pageId with
  | none => ⟨400, none, s⟩
  | some p =>
    withAlias s aliasId fun a =>
      if a.user_id ≠ userId then ⟨403, none, s⟩
      else ⟨200, some ((getAliasLog cfg s a.id p).map classifyActivity), s⟩

/-- Modelled from the spec: `Contact.last_reply` lives in `app/models`, not
under `src/`; per §4.2 it is the most recent reply-direction EmailLog tied to
this contact, or none when no such log exists. -/
def lastReply (logs : List EmailLog) (c : Contact) : Option EmailLog :=
  (logs.filter fun l => l.is_reply ∧ l.contact_id = some c.id).argmax fun l => l.when

/-- Modelled from the spec: `Contact.website_send_to` lives in `app/models`,
not under `src/`; per §4.2 it is a formatted "Display <reply_email>" style
string combining the correspondent's display form (raw From header) when known
with the reply address. -/
def websiteSendTo (c : Contact) : String :=
  match c.website_from with
  | none => c.reply_email
  | some w => if w = "" then c.reply_email else w ++ " <" ++ c.reply_email ++ ">"

/-- The serialized contact produced by `serialize_contact` (lines 202-218).
The formatted `*_date` strings (Arrow rendering, external) are represented by
their timestamps. -/
structure ContactResp where
  creation_timestamp : Nat
  last_email_sent_timestamp : Option Nat
  contact : String
  reverse_alias : String
deriving DecidableEq, Repr

/-- `serialize_contact` (lines 202-218): creation timestamp, `contact` =
`website_from or website_email`, `reverse_alias` = `website_send_to()`, and
the last reply-direction log's timestamp when one exists. -/
def serializeContact (logs : List EmailLog) (fe : Contact) : ContactResp :=
  { creation_timestamp := fe.created_at
    last_email_sent_timestamp := (lastReply logs fe).map fun l => l.when
    contact := strOr fe.website_from fe.website_email
    reverse_alias := websiteSendTo fe }

/-- The contact rows belonging to an alias (`filter_by(gen_email_id=...)`). -/
def contactsOfAlias (s : Store) (aliasId : Nat) : List Contact :=
  s.contacts.filter fun c => c.gen_email_id = aliasId

/-- The page of contact rows selected by `get_alias_contacts` (lines 221-227):
alias's contacts ordered by descending id, with `OFFSET page_id * PAGE_LIMIT`
and `LIMIT PAGE_LIMIT`. -/
def contactsPage (cfg : Config) (s : Store) (aliasId pageId : Nat) : List Contact :=
  ((List.insertionSort contactDesc (contactsOfAlias s aliasId)).drop
      (pageId * cfg.pageLimit)).take
    cfg.pageLimit

/-- `get_alias_contacts` (lines 221-233): the page of contact rows, each
serialized. -/
def getAliasContacts (cfg : Config) (s : Store) (aliasId pageId : Nat) :
    List ContactResp :=
  (contactsPage cfg s aliasId pageId).map (serializeContact s.logs)

/-- `get_alias_contacts_route` (lines 239-267): page-id validation, lookup,
ownership gate, then the serialized contact page. -/
def getAliasContactsRoute (cfg : Config) (s : Store) (userId aliasId : Nat)
    (pageId : Option Nat) : HandlerOut (List ContactResp) :=
  match pageId with
  | none => ⟨400, none, s⟩
  | some p =>
    withAlias s aliasId fun a =>
      if a.user_id ≠ userId then ⟨403, none, s⟩
      else ⟨200, some (getAliasContacts cfg s a.id p), s⟩

/-- Modelled from the spec: the persistence layer behind `Contact.create`
(`app/models`, not under `src/`) enforces a uniqueness constraint on
`reply_email`; per §4.2 step 4 a constraint violation propagates as a
`ContactAlreadyExists`-class conflict instead of persisting.  `insertContact`
is that atomic persistence step: `none` (conflict) when the reply address is
already taken, else the store with the new row appended under a fresh id. -/
def insertContact (s : Store) (newC : Contact) : Option Store :=
  if s.contacts.any (fun c => c.reply_email = newC.reply_email) then none
  else
    some
      { s with
        contacts := s.contacts ++ [newC]
        nextContactId := s.nextContactId + 1 }

/-- `create_contact_route` (lines 273-321), in source order: empty-body
validation, alias lookup, ownership gate, reply-email generation loop,
`parseaddr`, duplicate `(gen_email_id, website_email)` pre-check (409), then
persistence and the serialized contact with status 201. -/
def createContact (cfg : Config) (s : Store) (userId aliasId : Nat)
    (reqBody : Option String) : HandlerOut ContactResp :=
  match reqBody with
  | none => ⟨400, none, s⟩
  | some contact_email =>
    withAlias s aliasId fun a =>
      if a.user_id ≠ userId then ⟨403, none, s⟩
      else
        let reply_email := genReplyEmail cfg (s.contacts.map fun c => c.reply_email)
        let website_email := (parseaddr contact_email).2
        if s.contacts.any (fun c => c.gen_email_id = a.id ∧ c.website_email = website_email)
        then ⟨409, none, s⟩
        else
          let newC : Contact :=
            { id := s.nextContactId
              gen_email_id := a.id
              website_email := website_email
              website_from := some contact_email
              reply_email := reply_email
              created_at := cfg.now }
          match insertContact s newC with
          | none => ⟨409, none, s⟩
          | some s2 => ⟨201, some (serializeContact s2.logs newC), s2⟩

/-- Fold a batch of create-contact requests `(user, alias id, body)` over the
store, keeping each request's resulting store. -/
def applyCreates (cfg : Config) (s : Store) : List (Nat × Nat × Option String) → Store
  | [] => s
  | (u, aid, b) :: rest => applyCreates cfg (createContact cfg s u aid b).store rest

/-- All stored reply addresses are pairwise distinct. -/
def repliesDistinct (s : Store) : Prop :=
  (s.contacts.map fun c => c.reply_email).Nodup

/-- Some contact of the store already pairs this alias id with this parsed
correspondent address (the dedupe pre-check of line 308). -/
def pairExists (s : Store) (aid : Nat) (we : String) : Prop :=
  ∃ c ∈ s.contacts, c.gen_email_id = aid ∧ c.website_email = we

/-- A concrete configuration: domain `sl.co`, page size 20, a constant stream
of 25-character tokens. -/
def cfg0 : Config :=
  { domain := "sl.co", pageLimit := 20, now := 7
    tokens := fun _ => "aaaaaaaaaaaaaaaaaaaaaaaaa" }

/-- A concrete alias row owned by user 1. -/
def aliasA : Alias := { id := 1, user_id := 1, enabled := true, note := none }

/-- A store holding only `aliasA`. -/
def storeA : Store := { aliases := [aliasA], contacts := [], logs := [], nextContactId := 0 }

/-- The empty store. -/
def emptyStore : Store := { aliases := [], contacts := [], logs := [], nextContactId := 0 }

/-- The §4.3 classification table for one log row: the timestamp is `when`;
a reply flows alias → correspondent (raw-from preferred) and is tagged
`reply`; a non-reply flows correspondent → alias and is tagged `bounced` when
the bounce flag is set, else `block` when the block flag is set, else
`forward`. -/
def ClassifiedRow (l : EmailLog) : Prop :=
  (classifyActivity l).timestamp = l.when ∧
  (l.is_reply = true →
    (classifyActivity l).action = AAction.reply ∧
    (classifyActivity l).fromAddr = l.aliasEmail ∧
    (classifyActivity l).toAddr = strOr l.website_from l.website_email) ∧
  (l.is_reply = false →
    (classifyActivity l).fromAddr = strOr l.website_from l.website_email ∧
    (classifyActivity l).toAddr = l.aliasEmail ∧
    (l.bounced = true → (classifyActivity l).action = AAction.bounced) ∧
    (l.bounced = false → l.blocked = true → (classifyActivity l).action = AAction.block) ∧
    (l.bounced = false → l.blocked = false → (classifyActivity l).action = AAction.forward))

/-- C2: every EmailLog row is assigned exactly one action from
{forward, reply, block, bounced} with the from/to fields of the §4.3 table:
a reply flows alias → correspondent; otherwise the flow is swapped and bounce
takes precedence over block, which takes precedence over forward. -/
theorem c2_activity_classification (l : EmailLog) : ClassifiedRow l := by
  unfold ClassifiedRow classifyActivity
  rcases l with ⟨aid, cid, w, ir, bo, bl, ae, wf, we⟩
  cases ir <;> cases bo <;> cases bl <;> simp

/-- C2 witness: a row with `is_reply = false`, `bounced = true`,
`blocked = true` is classified by the table — in particular as `bounced`. -/
theorem c2_activity_classification_witness :
    ClassifiedRow ⟨1, none, 5, false, true, true, "a@sl.co", some "Bob <bob@x.com>", "bob@x.com"⟩ ∧
    (classifyActivity
        ⟨1, none, 5, false, true, true, "a@sl.co", some "Bob <bob@x.com>", "bob@x.com"⟩).action =
      AAction.bounced := by
  have h := c2_activity_classification
    ⟨1, none, 5, false, true, true, "a@sl.co", some "Bob <bob@x.com>", "bob@x.com"⟩
  exact ⟨h, (h.2.2 rfl).2.2.1 rfl⟩

/-- The common outcome of all six alias operations when the alias id is
absent from the store: status 404, no payload, untouched store. -/
def MissingAliasOut (cfg : Config) (s : Store) (u aid : Nat) (note raw : String)
    (p : Nat) : Prop :=
  deleteAlias s u aid = ⟨404, none, s⟩ ∧
  toggleAlias s u aid = ⟨404, none, s⟩ ∧
  updateAlias s u aid (some note) = ⟨404, none, s⟩ ∧
  getAliasActivities cfg s u aid (some p) = ⟨404, none, s⟩ ∧
  getAliasContactsRoute cfg s u aid (some p) = ⟨404, none, s⟩ ∧
  createContact cfg s u aid (some raw) = ⟨404, none, s⟩

/-- C5: every operation that looks an alias up by id (delete, toggle, update
note, list activities, list contacts, create contact) fails with NotFound —
not an unhandled internal error — and leaves the store unchanged when no alias
with that id exists. -/
theorem c5_missing_alias_not_found (cfg : Config) (s : Store) (u aid : Nat)
    (note raw : String) (p : Nat) (h : getAlias s aid = none) :
    MissingAliasOut cfg s u aid note raw p := by
  unfold MissingAliasOut deleteAlias toggleAlias updateAlias getAliasActivities
    getAliasContactsRoute createContact withAlias
  simp [h]

/-- C5 witness: the empty store has no alias 1, and all six operations answer
404 for it. -/
theorem c5_missing_alias_not_found_witness :
    getAlias emptyStore 1 = none ∧ MissingAliasOut cfg0 emptyStore 2 1 "n" "r" 0 :=
  ⟨rfl, c5_missing_alias_not_found cfg0 emptyStore 2 1 "n" "r" 0 rfl⟩

/-- The common outcome of all six alias operations when the alias exists but
belongs to another user and the request otherwise passes validation: status
403, no payload, untouched store. -/
def ForbiddenOut (cfg : Config) (s : Store) (u aid : Nat) (note raw : String)
    (p : Nat) : Prop :=
  deleteAlias s u aid = ⟨403, none, s⟩ ∧
  toggleAlias s u aid = ⟨403, none, s⟩ ∧
  updateAlias s u aid (some note) = ⟨403, none, s⟩ ∧
  getAliasActivities cfg s u aid (some p) = ⟨403, none, s⟩ ∧
  getAliasContactsRoute cfg s u aid (some p) = ⟨403, none, s⟩ ∧
  createContact cfg s u aid (some raw) = ⟨403, none, s⟩

/-- C7 counterexample: the claim "any operation on an alias by a non-owner
returns Forbidden (403)" fails as stated: user 2 does not own alias 1 of
`storeA`, yet the update-note operation invoked with an empty body answers
400 (the empty-body validation runs before the ownership check), not 403. -/
theorem c7_ownership_counterexample :
    getAlias storeA 1 = some aliasA ∧ aliasA.user_id ≠ 2 ∧
    (updateAlias storeA 2 1 none).status = 400 ∧
    ¬(updateAlias storeA 2 1 none).status = 403 := by decide

/-- C7 (amended): every operation on an alias invoked by a non-owner whose
request passes input validation (non-empty body, page id present) returns
Forbidden 403 and leaves the store unchanged. -/
theorem c7_ownership_gate (cfg : Config) (s : Store) (u aid : Nat) (a : Alias)
    (ha : getAlias s aid = some a) (hown : a.user_id ≠ u) (note raw : String)
    (p : Nat) : ForbiddenOut cfg s u aid note raw p := by
  unfold ForbiddenOut deleteAlias toggleAlias updateAlias getAliasActivities
    getAliasContactsRoute createContact withAlias
  simp [ha, hown]

/-- C7 witness: user 2 does not own alias 1 of `storeA`; all six operations,
with valid inputs, answer 403 and leave the store as it was. -/
theorem c7_ownership_gate_witness :
    getAlias storeA 1 = some aliasA ∧ aliasA.user_id ≠ 2 ∧
    ForbiddenOut cfg0 storeA 2 1 "n" "r" 0 :=
  ⟨rfl, by decide, c7_ownership_gate cfg0 storeA 2 1 aliasA rfl (by decide) "n" "r" 0⟩

/-- C10: in update-note and create-contact the empty-body validation runs
first: with an empty body the answer is 400 with no payload and an untouched
store, whoever the caller is and whatever the alias id — in particular also
for a caller who does not own the alias, where the answer is 400, never
403. -/
theorem c10_empty_body_before_ownership (cfg : Config) (s : Store) (u aid : Nat) :
    updateAlias s u aid none = ⟨400, none, s⟩ ∧
    createContact cfg s u aid none = ⟨400, none, s⟩ :=
  ⟨rfl, rfl⟩

/-- The retry loop starting at draw `i` with `fuel` draws left either returns
the first absent candidate among draws `i, i+1, ...` within the fuel, or —
when every candidate within the fuel collides — the last-drawn candidate. -/
theorem genGo_spec (domain : String) (tokens : Nat → String) (existing : List String) :
    ∀ fuel i : Nat,
      (∃ k, i ≤ k ∧ k < i + fuel ∧
        mkCandidate domain (tokens k) ∉ existing ∧
        (∀ j, i ≤ j → j < k → mkCandidate domain (tokens j) ∈ existing) ∧
        genGo domain tokens existing i fuel = mkCandidate domain (tokens k)) ∨
      ((∀ j, i ≤ j → j < i + fuel → mkCandidate domain (tokens j) ∈ existing) ∧
        genGo domain tokens existing i fuel = mkCandidate domain (tokens (i + fuel - 1))) := by
  intro fuel
  induction fuel with
  | zero =>
    intro i
    right
    exact ⟨fun j hj hlt => absurd hlt (by omega), rfl⟩
  | succ f ih =>
    intro i
    by_cases hc : mkCandidate domain (tokens i) ∈ existing
    · have hgo : genGo domain tokens existing i (f + 1) =
          genGo domain tokens existing (i + 1) f := by
        simp [genGo, List.any_eq_true, hc]
      rcases ih (i + 1) with ⟨k, hik, hkf, habs, hall, heq⟩ | ⟨hall, heq⟩
      · left
        refine ⟨k, by omega, by omega, habs, ?_, hgo ▸ heq⟩
        intro j hj hjk
        rcases Nat.eq_or_lt_of_le hj with he | hlt
        · exact he ▸ hc
        · exact hall j hlt hjk
      · right
        constructor
        · intro j hj hjlt
          rcases Nat.eq_or_lt_of_le hj with he | hlt
          · exact he ▸ hc
          · exact hall j hlt (by omega)
        · rw [hgo, heq]
          have harith : i + 1 + f - 1 = i + (f + 1) - 1 := by omega
          rw [harith]
    · left
      refine ⟨i, Nat.le_refl i, by omega, hc, fun j hj hjk => absurd (Nat.lt_of_le_of_lt hj hjk) (Nat.lt_irrefl i), ?_⟩
      simp [genGo, List.any_eq_true, hc]

/-- The contract of the reply-email generator over a stream of tokens and the
stored reply addresses: the result is `ra+<token>@<domain>` built from a
25-character token, obtained either as the first of at most 1000 freshly-drawn
candidates found absent from the store, or — when all 1000 drawn candidates
collide — as the 1000th (last-generated) candidate. -/
def GenerateSpec (cfg : Config) (existing : List String) : Prop :=
  (∃ k, 1 ≤ k ∧ k ≤ 1000 ∧
    genReplyEmail cfg existing = "ra+" ++ cfg.tokens k ++ "@" ++ cfg.domain ∧
    (cfg.tokens k).length = 25 ∧
    mkCandidate cfg.domain (cfg.tokens k) ∉ existing ∧
    ∀ j, 1 ≤ j → j < k → mkCandidate cfg.domain (cfg.tokens j) ∈ existing) ∨
  ((∀ j, 1 ≤ j → j ≤ 1000 → mkCandidate cfg.domain (cfg.tokens j) ∈ existing) ∧
    genReplyEmail cfg existing = "ra+" ++ cfg.tokens 1000 ++ "@" ++ cfg.domain)

/-- C4: the identity generator draws `ra+<25-char-token>@<domain>` candidates,
resampling the token on each of at most 1000 attempts, each attempt a single
read-only existence check; it returns the first candidate found absent, and
the last-generated candidate when all 1000 attempts collide. -/
theorem c4_generate_bounded (cfg : Config) (existing : List String)
    (htok : ∀ n, (cfg.tokens n).length = 25) : GenerateSpec cfg existing := by
  unfold GenerateSpec
  rcases genGo_spec cfg.domain cfg.tokens existing 1000 1 with
    ⟨k, h1, h2, h3, h4, h5⟩ | ⟨h1, h2⟩
  · left
    refine ⟨k, h1, by omega, ?_, htok k, h3, h4⟩
    simpa [genReplyEmail, mkCandidate] using h5
  · right
    constructor
    · intro j hj hj2
      exact h1 j hj (by omega)
    · have harith : 1 + 1000 - 1 = 1000 := by omega
      rw [harith] at h2
      simpa [genReplyEmail, mkCandidate] using h2

/-- C4 witness: the constant stream of 25-character tokens satisfies the
length premise, and the generator meets its contract on the empty store. -/
theorem c4_generate_bounded_witness :
    (∀ n, (cfg0.tokens n).length = 25) ∧ GenerateSpec cfg0 [] :=
  ⟨fun _ => rfl, c4_generate_bounded cfg0 [] fun _ => rfl⟩

/-- `createContact` keeps the stored reply addresses pairwise distinct: a row
is only ever persisted behind the uniqueness constraint on `reply_email`. -/
theorem createContact_preserves_distinct (cfg : Config) (s : Store) (u aid : Nat)
    (b : Option String) (h : repliesDistinct s) :
    repliesDistinct (createContact cfg s u aid b).store := by
  unfold createContact withAlias
  split
  · exact h
  · split
    · exact h
    · dsimp only
      split
      · exact h
      · split
        · exact h
        · split
          · exact h
          · rename_i s2 hins
            unfold insertContact at hins
            split at hins
            · exact Option.noConfusion hins
            · rename_i hr
              injection hins with hs2
              subst hs2
              unfold repliesDistinct at h ⊢
              simp only [List.map_append, List.map_cons, List.map_nil]
              rw [List.nodup_append]
              refine ⟨h, List.nodup_singleton _, ?_⟩
              intro x hx hx2
              apply hr
              simp only [List.mem_singleton] at hx2
              rcases List.mem_map.mp hx with ⟨c, hc, hcr⟩
              simp only [List.any_eq_true, decide_eq_true_eq]
              exact ⟨c, hc, by rw [hcr, hx2]⟩

/-- C1: starting from a store whose reply addresses are pairwise distinct,
any batch of create-contact requests leaves them pairwise distinct — every
generated-and-persisted reply address is globally unique across the stored
contacts. -/
theorem c1_reply_email_unique (cfg : Config) (s : Store)
    (reqs : List (Nat × Nat × Option String)) (h : repliesDistinct s) :
    repliesDistinct (applyCreates cfg s reqs) := by
  induction reqs generalizing s with
  | nil => exact h
  | cons r rest ih =>
    rcases r with ⟨u, aid, b⟩
    exact ih _ (createContact_preserves_distinct cfg s u aid b h)

/-- C1 witness: `storeA` trivially satisfies the invariant, and it still holds
after a batch of two create-contact requests. -/
theorem c1_reply_email_unique_witness :
    repliesDistinct storeA ∧
    repliesDistinct
      (applyCreates cfg0 storeA [(1, 1, some "Bob <bob@x.com>"), (1, 1, some "carol@y.com")]) :=
  ⟨List.Pairwise.nil, c1_reply_email_unique cfg0 storeA _ List.Pairwise.nil⟩

/-- Inversion of a successful create: a 201 answer means the alias was found,
owned by the caller, the `(gen_email_id, website_email)` pair was absent, and
the store gained exactly the one new row built from the parsed input and the
generated reply address. -/
theorem createContact_success_inv (cfg : Config) (s : Store) (u aid : Nat)
    (raw : String) (hst : (createContact cfg s u aid (some raw)).status = 201) :
    ∃ a, getAlias s aid = some a ∧ a.user_id = u ∧
      ¬ pairExists s a.id (parseaddr raw).2 ∧
      (createContact cfg s u aid (some raw)).store =
        { s with
          contacts := s.contacts ++
            [{ id := s.nextContactId
               gen_email_id := a.id
               website_email := (parseaddr raw).2
               website_from := some raw
               reply_email := genReplyEmail cfg (s.contacts.map fun c => c.reply_email)
               created_at := cfg.now }]
          nextContactId := s.nextContactId + 1 } := by
  unfold createContact withAlias at hst ⊢
  dsimp only at hst ⊢
  split at hst
  · simp at hst
  · rename_i a heq
    split at hst
    · simp at hst
    · rename_i hown
      split at hst
      · simp at hst
      · rename_i hnodup
        split at hst
        · simp at hst
        · rename_i s2 hins
          refine ⟨a, heq, not_not.mp hown, ?_, ?_⟩
          · intro hex
            apply hnodup
            simp only [List.any_eq_true, decide_eq_true_eq]
            exact hex
          · rw [if_neg hown, if_neg hnodup]
            unfold insertContact at hins
            split at hins
            · exact Option.noConfusion hins
            · injection hins with hs2
              exact hs2.symm

/-- Duplicate rejection for create-contact: an existing
`(gen_email_id, website_email)` pair makes the call fail with 409 and an
untouched store, and after any successful call a repeat of the same request
(under any configuration, i.e. any further random draws) answers 409 and
leaves the store exactly as the success left it. -/
def DupRejectSpec (cfg cfg2 : Config) (s : Store) (u aid : Nat) (raw : String) : Prop :=
  (∀ a, getAlias s aid = some a → a.user_id = u →
    pairExists s a.id (parseaddr raw).2 →
    createContact cfg s u aid (some raw) = ⟨409, none, s⟩) ∧
  ((createContact cfg s u aid (some raw)).status = 201 →
    (createContact cfg2 (createContact cfg s u aid (some raw)).store u aid (some raw)).status = 409 ∧
    (createContact cfg2 (createContact cfg s u aid (some raw)).store u aid (some raw)).store =
      (createContact cfg s u aid (some raw)).store)

/-- C3: creating a contact whose `(gen_email_id, website_email)` pair already
exists fails with a 409 conflict and no further action (store unchanged), and
creating the same correspondent for the same alias twice yields exactly one
success and one conflict. -/
theorem c3_duplicate_rejection (cfg cfg2 : Config) (s : Store) (u aid : Nat)
    (raw : String) : DupRejectSpec cfg cfg2 s u aid raw := by
  constructor
  · intro a hga hown hex
    unfold createContact withAlias
    dsimp only
    rw [hga]
    dsimp only
    rw [if_neg (not_not_intro hown)]
    rw [if_pos (by simp only [List.any_eq_true, decide_eq_true_eq]; exact hex)]
  · intro hst
    obtain ⟨a, hga, hown, _, hstore⟩ := createContact_success_inv cfg s u aid raw hst
    set s3 := (createContact cfg s u aid (some raw)).store with hs3
    have hga2 : getAlias s3 aid = some a := by rw [hstore]; exact hga
    have h2 : createContact cfg2 s3 u aid (some raw) = ⟨409, none, s3⟩ := by
      unfold createContact withAlias
      dsimp only
      rw [hga2]
      dsimp only
      rw [if_neg (not_not_intro hown)]
      rw [if_pos ?hdup]
      case hdup =>
        simp only [List.any_eq_true, decide_eq_true_eq]
        refine ⟨{ id := s.nextContactId
                  gen_email_id := a.id
                  website_email := (parseaddr raw).2
                  website_from := some raw
                  reply_email := genReplyEmail cfg (s.contacts.map fun c => c.reply_email)
                  created_at := cfg.now }, ?_, rfl, rfl⟩
        rw [hstore]
        exact List.mem_append_right _ (List.mem_singleton.mpr rfl)
    exact ⟨by rw [h2], by rw [h2]⟩

/-- C3 witness: on `storeA` the first create for "Bob <bob@x.com>" succeeds
and the duplicate-rejection contract holds for the repeated request. -/
theorem c3_duplicate_rejection_witness :
    DupRejectSpec cfg0 cfg0 storeA 1 1 "Bob <bob@x.com>" ∧
    (createContact cfg0 storeA 1 1 (some "Bob <bob@x.com>")).status = 201 :=
  ⟨c3_duplicate_rejection cfg0 cfg0 storeA 1 1 "Bob <bob@x.com>", by decide⟩

/-- C6 counterexample: the claim that a stored `website_email` "is never the
empty string" fails as stated: creating a contact from the raw input `""`
succeeds with 201 and persists the empty string as the parsed address —
`parseaddr` yields no address and the code stores whatever it returns. -/
theorem c6_empty_website_email_counterexample :
    (parseaddr "").2 = "" ∧
    (createContact cfg0 storeA 1 1 (some "")).status = 201 ∧
    (createContact cfg0 storeA 1 1 (some "")).store.contacts.map
        (fun c => c.website_email) = [""] := by
  decide

/-- A successful create appends exactly one row whose `website_email` is the
address portion extracted by `parseaddr` from the raw input (display name
discarded) and whose `website_from` is the raw input itself. -/
def ParsedEmailSpec (cfg : Config) (s : Store) (u aid : Nat) (raw : String) : Prop :=
  ∃ c, (createContact cfg s u aid (some raw)).store.contacts = s.contacts ++ [c] ∧
    c.website_from = some raw ∧ c.website_email = (parseaddr raw).2

/-- C6 (amended): for every successfully created contact the stored
`website_email` is the address portion extracted from the raw input by
address parsing, with the display name discarded; it may be the empty string
when parsing yields no address. -/
theorem c6_website_email_parsed (cfg : Config) (s : Store) (u aid : Nat)
    (raw : String) (hst : (createContact cfg s u aid (some raw)).status = 201) :
    ParsedEmailSpec cfg s u aid raw := by
  obtain ⟨a, _, _, _, hstore⟩ := createContact_success_inv cfg s u aid raw hst
  exact ⟨_, by rw [hstore], rfl, rfl⟩

/-- C6 witness: creating from "Bob <bob@x.com>" succeeds and stores the
parsed address. -/
theorem c6_website_email_parsed_witness :
    (createContact cfg0 storeA 1 1 (some "Bob <bob@x.com>")).status = 201 ∧
    ParsedEmailSpec cfg0 storeA 1 1 "Bob <bob@x.com>" :=
  ⟨by decide, c6_website_email_parsed cfg0 storeA 1 1 "Bob <bob@x.com>" (by decide)⟩

/-- The serialization contract of one contact against the log store: the
creation timestamp is the row's; the `contact` field prefers a present,
non-empty raw From header and falls back to the parsed address; the reverse
alias contains the reply address; `last_email_sent_timestamp` is the
timestamp of the most recent reply-direction log tied to the contact, and
absent exactly when no such log exists. -/
def SerializeSpec (logs : List EmailLog) (c : Contact) : Prop :=
  (serializeContact logs c).creation_timestamp = c.created_at ∧
  (∀ w, c.website_from = some w → w ≠ "" → (serializeContact logs c).contact = w) ∧
  ((c.website_from = none ∨ c.website_from = some "") →
    (serializeContact logs c).contact = c.website_email) ∧
  (∃ pre post, (serializeContact logs c).reverse_alias = pre ++ c.reply_email ++ post) ∧
  ((serializeContact logs c).last_email_sent_timestamp = none ↔
    ∀ l ∈ logs, ¬(l.is_reply = true ∧ l.contact_id = some c.id)) ∧
  (∀ t, (serializeContact logs c).last_email_sent_timestamp = some t →
    ∃ l ∈ logs, l.is_reply = true ∧ l.contact_id = some c.id ∧ l.when = t ∧
      ∀ l2 ∈ logs, l2.is_reply = true → l2.contact_id = some c.id → l2.when ≤ t)

/-- The round trip of §8: creating a contact for alias 1 of `storeA` from
"Bob <bob@x.com>" and serializing it yields `contact = "Bob <bob@x.com>"` and
a reverse alias containing the generated reply address (which is the one
reply address the store now holds). -/
def RoundTripBob : Prop :=
  (createContact cfg0 storeA 1 1 (some "Bob <bob@x.com>")).body.map
      (fun r => r.contact) = some "Bob <bob@x.com>" ∧
  ∃ pre post,
    (createContact cfg0 storeA 1 1 (some "Bob <bob@x.com>")).body.map
        (fun r => r.reverse_alias) =
      some (pre ++ "ra+aaaaaaaaaaaaaaaaaaaaaaaaa@sl.co" ++ post) ∧
    (createContact cfg0 storeA 1 1 (some "Bob <bob@x.com>")).store.contacts.map
        (fun c => c.reply_email) = ["ra+aaaaaaaaaaaaaaaaaaaaaaaaa@sl.co"]

/-- C8: `serialize` produces `contact` = `website_from` when present (else
`website_email`), a reverse alias containing the reply address, and
`last_email_sent_timestamp` equal to the most recent reply-direction log tied
to the contact or absent when none exists; serializing a contact just created
from "Bob <bob@x.com>" yields `contact = "Bob <bob@x.com>"`. -/
theorem c8_serialize_contact (logs : List EmailLog) (c : Contact) :
    SerializeSpec logs c ∧ RoundTripBob := by
  constructor
  · refine ⟨rfl, ?_, ?_, ?_, ?_, ?_⟩
    · intro w hw hne
      simp [serializeContact, strOr, hw, hne]
    · rintro (h | h) <;> simp [serializeContact, strOr, h]
    · show ∃ pre post, websiteSendTo c = pre ++ c.reply_email ++ post
      unfold websiteSendTo
      cases hw : c.website_from with
      | none =>
        refine ⟨"", "", ?_⟩
        dsimp only
        rw [String.empty_append, String.append_empty]
      | some w =>
        by_cases hne : w = ""
        · refine ⟨"", "", ?_⟩
          dsimp only
          rw [if_pos hne, String.empty_append, String.append_empty]
        · refine ⟨w ++ " <", ">", ?_⟩
          dsimp only
          rw [if_neg hne]
    · show ((lastReply logs c).map fun l => l.when) = none ↔ _
      rw [Option.map_eq_none']
      unfold lastReply
      rw [List.argmax_eq_none, List.filter_eq_nil_iff]
      simp
    · intro t ht
      have hm := Option.map_eq_some'.mp ht
      obtain ⟨m, hm1, hm2⟩ := hm
      have hmem := List.argmax_mem hm1
      have hfl := List.mem_filter.mp hmem
      obtain ⟨hml, hmp⟩ := hfl
      simp only [decide_eq_true_eq] at hmp
      refine ⟨m, hml, hmp.1, hmp.2, hm2, ?_⟩
      intro l2 hl2 hrep hcid
      have hl2f : l2 ∈ logs.filter fun l => l.is_reply ∧ l.contact_id = some c.id := by
        rw [List.mem_filter]
        exact ⟨hl2, by simp [hrep, hcid]⟩
      calc l2.when ≤ m.when := List.le_of_mem_argmax hl2f hm1
        _ = t := hm2
  · refine ⟨by decide, "Bob <bob@x.com> <", ">", by decide, by decide⟩

/-- C8 witness: the serialization contract at a concrete contact whose raw
From header is present, against a two-row log store. -/
theorem c8_serialize_contact_witness :
    SerializeSpec
      [⟨1, some 4, 5, true, false, false, "a@sl.co", some "Bob <bob@x.com>", "bob@x.com"⟩,
       ⟨1, some 4, 9, true, false, false, "a@sl.co", some "Bob <bob@x.com>", "bob@x.com"⟩]
      ⟨4, 1, "bob@x.com", some "Bob <bob@x.com>", "ra+t@sl.co", 3⟩ ∧
    RoundTripBob :=
  c8_serialize_contact _ _

/-- The pagination contract of `get_alias_contacts`: a sorted permutation
`all` of the alias's contacts exists such that the returned page is the slice
`drop (page * limit) |> take limit` of `all`, serialized; the page holds at
most `limit` rows, stays newest-id-first, contains only the alias's contacts,
and is empty whenever the offset reaches past the last row. -/
def ContactsPageSpec (cfg : Config) (s : Store) (aid p : Nat) : Prop :=
  ∃ all : List Contact,
    all.Perm (contactsOfAlias s aid) ∧
    List.Sorted contactDesc all ∧
    contactsPage cfg s aid p = (all.drop (p * cfg.pageLimit)).take cfg.pageLimit ∧
    getAliasContacts cfg s aid p = (contactsPage cfg s aid p).map (serializeContact s.logs) ∧
    (contactsPage cfg s aid p).length ≤ cfg.pageLimit ∧
    List.Sorted contactDesc (contactsPage cfg s aid p) ∧
    (∀ c ∈ contactsPage cfg s aid p, c ∈ s.contacts ∧ c.gen_email_id = aid) ∧
    ((contactsOfAlias s aid).length ≤ p * cfg.pageLimit → getAliasContacts cfg s aid p = [])

/-- C9: `listContacts` returns only contacts of the alias, newest-id-first,
skipping `pageIndex * pageSize` rows and returning at most `pageSize` rows;
any page index beyond the last page yields the empty list, not an error. -/
theorem c9_list_contacts_pagination (cfg : Config) (s : Store) (aid p : Nat) :
    ContactsPageSpec cfg s aid p := by
  refine ⟨List.insertionSort contactDesc (contactsOfAlias s aid),
    List.perm_insertionSort _ _, List.sorted_insertionSort _ _, rfl, rfl, ?_, ?_, ?_, ?_⟩
  · exact List.length_take_le _ _
  · exact List.Pairwise.sublist
      ((List.take_sublist _ _).trans (List.drop_sublist _ _))
      (List.sorted_insertionSort _ _)
  · intro c hc
    have h1 : c ∈ List.insertionSort contactDesc (contactsOfAlias s aid) :=
      ((List.take_sublist _ _).trans (List.drop_sublist _ _)).mem hc
    have h2 : c ∈ contactsOfAlias s aid := (List.perm_insertionSort _ _).mem_iff.mp h1
    have h3 := List.mem_filter.mp h2
    exact ⟨h3.1, by simpa using h3.2⟩
  · intro hlen
    have hdrop : (List.insertionSort contactDesc (contactsOfAlias s aid)).drop
        (p * cfg.pageLimit) = [] := by
      apply List.drop_eq_nil_of_le
      rw [List.length_insertionSort]
      exact hlen
    unfold getAliasContacts contactsPage
    rw [hdrop, List.take_nil, List.map_nil]

/-- C9 witness: the pagination contract at a store holding three contacts of
alias 1 and one of alias 2, on page 0. -/
theorem c9_list_contacts_pagination_witness :
    ContactsPageSpec cfg0
      { aliases := [aliasA]
        contacts :=
          [⟨1, 1, "a@x.com", none, "ra+a@sl.co", 1⟩,
           ⟨2, 1, "b@x.com", none, "ra+b@sl.co", 2⟩,
           ⟨3, 2, "c@x.com", none, "ra+c@sl.co", 3⟩,
           ⟨4, 1, "d@x.com", none, "ra+d@sl.co", 4⟩]
        logs := []
        nextContactId := 5 }
      1 0 :=
  c9_list_contacts_pagination cfg0 _ 1 0

end AliasApi
